import Mathlib

/-!
# Verification of the PDF-to-HTML conversion pipeline (`pdf_to_html.py`)

Shallow embedding of the pipeline in `pdf_to_html.py`:

* `pyStrip`, `py_isupper`, `py_isdigit` model the Python string methods
  `str.strip()`, `str.isupper()` and `str.isdigit()` over ASCII text
  (text is `List Char`; `str.isupper()` requires at least one cased
  character and no lowercase character, `str.isdigit()` requires a
  non-empty all-digit string).
* `pageFragments` and `extract_text_from_pdf` model the extraction loop
  (lines 9-37): keep text containers whose stripped text is non-empty,
  keep only non-empty pages, and record a diagnostic index for each page
  without text.  Coordinates are modelled as `Int` (the source uses the
  extractor's floats only through order comparisons).
* `classify` / `blockClasses` model the formatting rules of
  `create_html_from_text` (lines 78-89): an initial class `text-block`
  that the two rules overwrite (BeautifulSoup `tag[cls] = v` replaces
  the attribute) with `header` or `footer`.
* `order` models `sorted(page, key=lambda x: -x[y])` (line 76): Python's
  `sorted` is a stable sort by the key, embedded as an insertion sort on
  the key `-y`.
* `create_html_from_text` models the page loop (lines 70-91) producing
  one rendered page per retained input page, numbered from 1 in output
  order.
* `convert_pdf_to_html` models the driver (lines 101-145) as a trace of
  file-system effects plus an `Except` outcome: the output directory is
  created first, then extraction (whose failure propagates), then the
  empty-content early return, then HTML generation, and only then the
  output file write.
-/

/-- ASCII whitespace as recognised by Python's `str.strip()`. -/
def pyIsSpace (c : Char) : Bool :=
  c == ' ' || c == '\t' || c == '\n' || c == '\r' || c == '\x0b' || c == '\x0c'

/-- Python `str.strip()`: drop leading and trailing whitespace. -/
def pyStrip (s : List Char) : List Char :=
  ((s.dropWhile pyIsSpace).reverse.dropWhile pyIsSpace).reverse

/-- Python `str.isupper()`: at least one cased character, and no cased
character is lowercase.  Over ASCII the cased characters are exactly the
alphabetic ones.  In particular a string without any alphabetic
character (such as a digit string) is NOT upper-case. -/
def py_isupper (s : List Char) : Bool :=
  s.any Char.isAlpha && s.all (fun c => !c.isLower)

/-- Python `str.isdigit()`: non-empty and every character a decimal digit. -/
def py_isdigit (s : List Char) : Bool :=
  !s.isEmpty && s.all Char.isDigit

/-- A positioned text fragment, as built by `extract_text_from_pdf`. -/
structure TextFragment where
  text : List Char
  x : Int
  y : Int
  width : Int
  height : Int
deriving DecidableEq

/-- A layout element handed back by the extractor: either a text
container with its text and geometry, or a non-text element (line,
rectangle, ...), which the loop ignores. -/
inductive LTElement where
  | textContainer (raw : List Char) (x y width height : Int)
  | other
deriving DecidableEq

/-- The body of the inner extraction loop (lines 15-28): a text
container whose stripped text is non-empty yields a fragment. -/
def fragmentOf : LTElement → Option TextFragment
  | .textContainer raw x y w h =>
      let text := pyStrip raw
      if text.isEmpty then none else some ⟨text, x, y, w, h⟩
  | .other => none

/-- All fragments retained from one page layout (lines 14-28). -/
def pageFragments (page : List LTElement) : List TextFragment :=
  page.filterMap fragmentOf

/-- One iteration of the page loop of `extract_text_from_pdf`
(lines 13-33): a page with text is appended to the accumulated content,
a page without text only records the diagnostic index
`len(text_content) + 1` printed by the warning. -/
def extractStep (acc : List (List TextFragment) × List Nat) (page : List LTElement) :
    List (List TextFragment) × List Nat :=
  let page_text := pageFragments page
  if page_text.isEmpty then (acc.1, acc.2 ++ [acc.1.length + 1])
  else (acc.1 ++ [page_text], acc.2)

/-- `extract_text_from_pdf` (lines 9-37): the retained pages of
fragments together with the page indices reported by the
`No text found on page ...` warnings. -/
def extract_text_from_pdf (pages : List (List LTElement)) :
    List (List TextFragment) × List Nat :=
  pages.foldl extractStep ([], [])

/-- The page indices that the warnings of `extract_text_from_pdf`
actually report: `k` counts the content pages seen so far, and each
empty page reports `k + 1` (the source prints `len(text_content) + 1`,
the count of pages kept so far plus one, not the original page index). -/
def warningsFrom (k : Nat) : List (List TextFragment) → List Nat
  | [] => []
  | f :: fs => if f.isEmpty then (k + 1) :: warningsFrom k fs else warningsFrom (k + 1) fs

/-- The semantic role a block can receive. -/
inductive Role where
  | Header
  | Footer
  | Body
deriving DecidableEq

/-- The classification rules of lines 82-86, applied in order,
first match wins. -/
def classify (text : List Char) : Role :=
  if text.length < 50 && py_isupper text then Role.Header
  else if text.length < 30 && py_isdigit text then Role.Footer
  else Role.Body

/-- The class attribute of a rendered block (lines 79-86): the block is
created with class `text-block`, and the assignments
`text_block[cls] = header` / `= footer` REPLACE that attribute, so a
matched block ends up with a single class. -/
def blockClasses (text : List Char) : List String :=
  let cls : List String := ["text-block"]
  if text.length < 50 && py_isupper text then ["header"]
  else if text.length < 30 && py_isdigit text then ["footer"]
  else cls

/-- Sort key of line 76: `lambda x: -x[y]`. -/
def sortKey (f : TextFragment) : Int := -f.y

/-- `a` may be placed before `b` by the sort: key ascending. -/
def readingOrderR (a b : TextFragment) : Prop := sortKey a ≤ sortKey b

instance : DecidableRel readingOrderR :=
  fun a b => inferInstanceAs (Decidable (sortKey a ≤ sortKey b))

instance : IsTotal TextFragment readingOrderR :=
  ⟨fun a b => le_total (sortKey a) (sortKey b)⟩

instance : IsTrans TextFragment readingOrderR :=
  ⟨fun _ _ _ h1 h2 => le_trans h1 h2⟩

/-- Line 76, `sorted(page, key=lambda x: -x[y])`: Python's `sorted` is a
stable sort by the key, embedded as insertion sort on `readingOrderR`. -/
def order (page : List TextFragment) : List TextFragment :=
  List.insertionSort readingOrderR page

/-- A rendered block: its class attribute and its text. -/
structure HtmlBlock where
  classes : List String
  text : List Char
deriving DecidableEq

/-- Lines 78-88: each sorted fragment becomes one block element. -/
def renderBlock (b : TextFragment) : HtmlBlock :=
  { classes := blockClasses b.text, text := b.text }

/-- A rendered page: the number shown in its `Page N` heading and its
blocks in document order. -/
structure HtmlPage where
  number : Nat
  blocks : List HtmlBlock
deriving DecidableEq

/-- The page loop of `create_html_from_text` (lines 70-91), with the
running `page_num` of `enumerate(text_content, 1)` made explicit. -/
def createHtmlPages (page_num : Nat) : List (List TextFragment) → List HtmlPage
  | [] => []
  | page :: rest =>
      { number := page_num, blocks := (order page).map renderBlock } ::
        createHtmlPages (page_num + 1) rest

/-- `create_html_from_text` (lines 39-99), viewed as the logical
document it serialises: one page element per retained input page,
numbered from 1. -/
def create_html_from_text (text_content : List (List TextFragment)) : List HtmlPage :=
  createHtmlPages 1 text_content

/-- File-system effects performed by `convert_pdf_to_html`. -/
inductive FsEffect where
  | mkdirOutput
  | writeOutput (doc : List HtmlPage)
deriving DecidableEq

/-- `convert_pdf_to_html` (lines 101-145) as a trace of file-system
effects plus an outcome.  The input models the extractor collaborator:
`Except.error` is a PDF that `extract_pages` fails on (the failure is
re-raised by `extract_text_from_pdf` and by `convert_pdf_to_html`).
The output directory is created first (line 105); the output file is
written only in the final branch (line 130), after the HTML has been
generated, and is skipped when no content was extracted (lines 116-118)
or the generated document is empty (lines 124-126). -/
def convert_pdf_to_html (pdf : Except String (List (List LTElement))) :
    List FsEffect × Except String Unit :=
  let effs := [FsEffect.mkdirOutput]
  match pdf with
  | .error e => (effs, .error e)
  | .ok pages =>
      let text_content := (extract_text_from_pdf pages).1
      if text_content.isEmpty then (effs, .ok ())
      else
        let html_content := create_html_from_text text_content
        if html_content.isEmpty then (effs, .ok ())
        else (effs ++ [FsEffect.writeOutput html_content], .ok ())

/-! ## Helper lemmas -/

/-- The ASCII upper-case and lower-case ranges are disjoint. -/
theorem isUpper_not_isLower (c : Char) (h : c.isUpper = true) : c.isLower = false := by
  unfold Char.isUpper at h
  unfold Char.isLower
  simp only [Bool.and_eq_true, decide_eq_true_eq, UInt32.le_def, BitVec.le_def,
    UInt32.toBitVec_ofNat, BitVec.toNat_ofNat] at h
  simp only [Bool.and_eq_false_iff, decide_eq_false_iff_not, UInt32.le_def, BitVec.le_def,
    UInt32.toBitVec_ofNat, BitVec.toNat_ofNat]
  omega

/-- A decimal digit is not an alphabetic character. -/
theorem isDigit_not_isAlpha (c : Char) (h : c.isDigit = true) : c.isAlpha = false := by
  unfold Char.isDigit at h
  unfold Char.isAlpha Char.isUpper Char.isLower
  simp only [Bool.and_eq_true, decide_eq_true_eq, UInt32.le_def, BitVec.le_def,
    UInt32.toBitVec_ofNat, BitVec.toNat_ofNat] at h
  simp only [Bool.or_eq_false_iff, Bool.and_eq_false_iff, decide_eq_false_iff_not,
    UInt32.le_def, BitVec.le_def, UInt32.toBitVec_ofNat, BitVec.toNat_ofNat]
  omega

/-- `str.isupper()` is false for text with no alphabetic character. -/
theorem py_isupper_no_alpha {t : List Char} (h : ∀ c ∈ t, c.isAlpha = false) :
    py_isupper t = false := by
  simp only [py_isupper, Bool.and_eq_false_iff]
  left
  rw [List.any_eq_false]
  intro c hc
  simp [h c hc]

/-! ## Claims about the classifier -/

/-- C1 counterexample: the text `123-456` has length below 50 and every
alphabetic character uppercase (vacuously, it has none), yet the code
classifies it as `Body`, not `Header` — Python's `isupper()` is false
for a string without cased characters. -/
theorem c1_counterexample :
    (['1', '2', '3', '-', '4', '5', '6'].length < 50
      ∧ ∀ c ∈ ['1', '2', '3', '-', '4', '5', '6'], c.isAlpha → c.isUpper)
    ∧ classify ['1', '2', '3', '-', '4', '5', '6'] ≠ Role.Header := by
  refine ⟨⟨by decide, by decide⟩, by decide⟩

/-- C1 (amended): for every fragment text of length below 50 in which
every alphabetic character is uppercase AND which contains at least one
alphabetic character, classification returns `Header`. -/
theorem c1_classify_header (t : List Char) (h1 : t.length < 50)
    (h2 : ∀ c ∈ t, c.isAlpha = true → c.isUpper = true)
    (h3 : ∃ c ∈ t, c.isAlpha = true) :
    classify t = Role.Header := by
  have hiu : py_isupper t = true := by
    simp only [py_isupper, Bool.and_eq_true, List.any_eq_true, List.all_eq_true]
    refine ⟨h3, ?_⟩
    intro c hc
    by_cases hl : c.isLower = true
    · have ha : c.isAlpha = true := by simp [Char.isAlpha, hl]
      have hfalse := isUpper_not_isLower c (h2 c hc ha)
      rw [hfalse] at hl
      exact absurd hl (by simp)
    · simp only [Bool.not_eq_true] at hl
      simp [hl]
  simp [classify, hiu, h1]

/-- C1 witness: `HELLO` satisfies the amended hypotheses and is
classified as `Header`. -/
theorem c1_witness :
    (['H', 'E', 'L', 'L', 'O'].length < 50
      ∧ (∀ c ∈ ['H', 'E', 'L', 'L', 'O'], c.isAlpha = true → c.isUpper = true)
      ∧ (∃ c ∈ ['H', 'E', 'L', 'L', 'O'], c.isAlpha = true))
    ∧ classify ['H', 'E', 'L', 'L', 'O'] = Role.Header :=
  ⟨⟨by decide, by decide, by decide⟩,
    c1_classify_header ['H', 'E', 'L', 'L', 'O'] (by decide) (by decide) (by decide)⟩

/-- C2 counterexample: `123` is a non-empty digit-only text of length
below 30 that (per the claim's reading of rule 1) also qualifies under
the Header rule — length below 50 and every alphabetic character
uppercase, vacuously — yet the code classifies it as `Footer`, not
`Header`: rule 1 never matches a digit-only string. -/
theorem c2_counterexample :
    (['1', '2', '3'].length < 50
      ∧ (∀ c ∈ ['1', '2', '3'], c.isAlpha → c.isUpper)
      ∧ py_isdigit ['1', '2', '3'] = true)
    ∧ classify ['1', '2', '3'] = Role.Footer ∧ Role.Footer ≠ Role.Header := by
  exact ⟨⟨by decide, by decide, by decide⟩, by decide, by decide⟩

/-- C2 (amended): every non-empty digit-only fragment text of fewer
than 30 characters is classified `Footer`, unconditionally — the
Header rule never captures such text, because Python's `isupper()` is
false on a string with no cased characters. -/
theorem c2_classify_footer (t : List Char) (h0 : t ≠ [])
    (h1 : t.length < 30) (h2 : ∀ c ∈ t, c.isDigit = true) :
    classify t = Role.Footer := by
  have hnoalpha : py_isupper t = false :=
    py_isupper_no_alpha fun c hc => isDigit_not_isAlpha c (h2 c hc)
  have hempty : t.isEmpty = false := by
    cases t with
    | nil => exact absurd rfl h0
    | cons a l => rfl
  have hdig : py_isdigit t = true := by
    simp only [py_isdigit, hempty, Bool.and_eq_true, Bool.not_false, List.all_eq_true]
    exact ⟨trivial, h2⟩
  simp [classify, hnoalpha, hdig, h1]

/-- C2 witness: `456` satisfies the amended hypotheses and is
classified as `Footer`. -/
theorem c2_witness :
    (['4', '5', '6'] ≠ ([] : List Char)
      ∧ ['4', '5', '6'].length < 30
      ∧ (∀ c ∈ ['4', '5', '6'], c.isDigit = true))
    ∧ classify ['4', '5', '6'] = Role.Footer :=
  ⟨⟨by decide, by decide, by decide⟩,
    c2_classify_footer ['4', '5', '6'] (by decide) (by decide) (by decide)⟩

/-! ## Claims about the reading-order sort -/

/-- The fragments that `orderedInsert` skips over all have strictly
larger `y` than the inserted fragment, so inserting a fragment leaves
the subsequence at any fixed `y` value untouched, except for
prepending the new fragment when its own `y` is that value. -/
theorem filter_orderedInsert (k : Int) (a : TextFragment) (m : List TextFragment) :
    (List.orderedInsert readingOrderR a m).filter (fun f => decide (f.y = k)) =
      if a.y = k then a :: m.filter (fun f => decide (f.y = k))
      else m.filter (fun f => decide (f.y = k)) := by
  induction m with
  | nil =>
      by_cases h : a.y = k <;> simp [List.orderedInsert, List.filter, h]
  | cons b m ih =>
      by_cases hr : readingOrderR a b
      · rw [List.orderedInsert, if_pos hr]
        by_cases ha : a.y = k <;> by_cases hb : b.y = k <;>
          simp [List.filter, ha, hb]
      · have hlt : a.y < b.y := by
          simp only [readingOrderR, sortKey, not_le] at hr
          omega
        rw [List.orderedInsert, if_neg hr]
        by_cases ha : a.y = k
        · have hb : ¬ b.y = k := by omega
          simp [List.filter, ha, hb, ih]
        · by_cases hb : b.y = k <;> simp [List.filter, ha, hb, ih]

/-- Stability of the reading-order sort: the subsequence of fragments
at any fixed `y` value is exactly the input subsequence. -/
theorem filter_order (k : Int) (l : List TextFragment) :
    (order l).filter (fun f => decide (f.y = k)) =
      l.filter (fun f => decide (f.y = k)) := by
  induction l with
  | nil => rfl
  | cons a l ih =>
      show (List.orderedInsert readingOrderR a
        (List.insertionSort readingOrderR l)).filter _ = _
      rw [filter_orderedInsert]
      by_cases h : a.y = k <;> simp [List.filter, h, ← ih, order]

/-- C3: the reading-order sort of line 76 returns a permutation of the
page's fragments, sorted by descending `y` (larger `y` first, ties
adjacent), and it is stable: for every `y` value the fragments at that
`y` appear in their original extraction order, with no x-based
tie-break. -/
theorem c3_reading_order (l : List TextFragment) :
    (order l).Perm l
    ∧ (order l).Sorted (fun a b => b.y ≤ a.y)
    ∧ ∀ k : Int, (order l).filter (fun f => decide (f.y = k)) =
        l.filter (fun f => decide (f.y = k)) := by
  refine ⟨List.perm_insertionSort readingOrderR l, ?_, fun k => filter_order k l⟩
  have hs := List.sorted_insertionSort readingOrderR l
  exact hs.imp fun h => by simpa [readingOrderR, sortKey] using h

/-- A sample fragment with the given text and `y`; `x`, `width` and
`height` are irrelevant to the sort. -/
def frag (t : Char) (yv : Int) : TextFragment := ⟨[t], 0, yv, 0, 0⟩

/-- C4 counterexample: on fragments with `y` values `[10, 30, 10, 20]`
the sort does NOT return the claimed sequence `y=30`, then the two
`y=10` fragments, then `y=20` — descending order puts `y=20` second. -/
theorem c4_counterexample :
    order [frag 'a' 10, frag 'b' 30, frag 'c' 10, frag 'd' 20]
        = [frag 'b' 30, frag 'd' 20, frag 'a' 10, frag 'c' 10]
    ∧ order [frag 'a' 10, frag 'b' 30, frag 'c' 10, frag 'd' 20]
        ≠ [frag 'b' 30, frag 'a' 10, frag 'c' 10, frag 'd' 20] := by
  constructor <;> decide

/-- C4 (amended): on four fragments with `y` values `[10, 30, 10, 20]`
inserted in that order, the sort outputs the `y=30` fragment first,
then the `y=20` fragment, then the two `y=10` fragments in their
original relative order. -/
theorem c4_concrete_order :
    order [frag 'a' 10, frag 'b' 30, frag 'c' 10, frag 'd' 20]
      = [frag 'b' 30, frag 'd' 20, frag 'a' 10, frag 'c' 10] := by
  decide

/-! ## Claims about page dropping, numbering and warnings -/

/-- The content accumulated by the extraction loop: exactly the
non-empty fragment lists, in original page order, appended after the
accumulator. -/
theorem extract_foldl_fst (pages : List (List LTElement)) :
    ∀ acc : List (List TextFragment) × List Nat,
      (pages.foldl extractStep acc).1 =
        acc.1 ++ (pages.map pageFragments).filter (fun l => !l.isEmpty) := by
  induction pages with
  | nil => intro acc; simp
  | cons p ps ih =>
      intro acc
      rw [List.foldl_cons, ih]
      by_cases h : (pageFragments p).isEmpty <;> simp [extractStep, h]

/-- The warning indices accumulated by the extraction loop. -/
theorem extract_foldl_snd (pages : List (List LTElement)) :
    ∀ acc : List (List TextFragment) × List Nat,
      (pages.foldl extractStep acc).2 =
        acc.2 ++ warningsFrom acc.1.length (pages.map pageFragments) := by
  induction pages with
  | nil => intro acc; simp [warningsFrom]
  | cons p ps ih =>
      intro acc
      rw [List.foldl_cons, ih]
      by_cases h : (pageFragments p).isEmpty <;>
        simp [extractStep, h, warningsFrom]

/-- The `Page N` headings produced by the page loop count up from the
loop's starting number, one per retained page. -/
theorem createHtmlPages_numbers (tc : List (List TextFragment)) :
    ∀ n, (createHtmlPages n tc).map HtmlPage.number = List.range' n tc.length := by
  induction tc with
  | nil => intro n; simp [createHtmlPages]
  | cons p ps ih => intro n; simp [createHtmlPages, ih, List.range'_succ]

/-- C5: pages with zero retained fragments are dropped — the extracted
content is exactly the non-empty per-page fragment lists in original
order — and the output pages are renumbered `1, 2, ...` by position
among the content-bearing pages (so content on source pages 1 and 3
with page 2 empty yields two output pages numbered 1 and 2). -/
theorem c5_empty_pages_dropped (pages : List (List LTElement)) :
    (extract_text_from_pdf pages).1 =
        (pages.map pageFragments).filter (fun l => !l.isEmpty)
    ∧ (create_html_from_text (extract_text_from_pdf pages).1).map HtmlPage.number
        = List.range' 1 ((pages.map pageFragments).filter (fun l => !l.isEmpty)).length := by
  have hfst := extract_foldl_fst pages ([], [])
  refine ⟨hfst, ?_⟩
  rw [create_html_from_text, createHtmlPages_numbers, extract_text_from_pdf, hfst]
  simp

/-- C6 counterexample: with two source pages that both lack text, the
two warnings report index 1 both times (`len(text_content) + 1` with no
page yet retained), not the original indices 1 and 2. -/
theorem c6_counterexample :
    (extract_text_from_pdf [[], []]).2 = [1, 1] ∧ ([1, 1] : List Nat) ≠ [1, 2] := by
  constructor <;> decide

/-- C6 (amended): a warning is emitted for every dropped page without
aborting, but it carries one plus the count of content pages retained
so far (the output position the next content page would take), not the
page's original 1-based index in the source document. -/
theorem c6_warning_indices (pages : List (List LTElement)) :
    (extract_text_from_pdf pages).2 = warningsFrom 0 (pages.map pageFragments) := by
  rw [extract_text_from_pdf, extract_foldl_snd]
  simp

/-! ## Claims about block rendering -/

/-- C7 counterexample: a fragment classified `Header` is rendered with
class `header` alone — the assignment on line 84 replaces the
`text-block` class instead of appending to it. -/
theorem c7_counterexample :
    classify ['A', 'B', 'C'] = Role.Header
    ∧ ¬ "text-block" ∈ blockClasses ['A', 'B', 'C'] := by
  constructor <;> decide

/-- C7 (amended): a rendered block carries exactly one class — `header`
when its role is `Header`, `footer` when `Footer`, and `text-block`
only when its role is `Body` (the role-class assignment replaces
`text-block` rather than appending alongside it). -/
theorem c7_block_class (text : List Char) :
    blockClasses text =
      match classify text with
      | Role.Header => ["header"]
      | Role.Footer => ["footer"]
      | Role.Body => ["text-block"] := by
  unfold blockClasses classify
  by_cases h1 : (text.length < 50 && py_isupper text) = true
  · simp [h1]
  · by_cases h2 : (text.length < 30 && py_isdigit text) = true <;> simp [h1, h2]

/-- `renderBlock` preserves the fragment's text. -/
theorem renderBlock_text (f : TextFragment) : (renderBlock f).text = f.text := rfl

/-- Each output page's blocks are the page's sorted, rendered
fragments. -/
theorem createHtmlPages_blocks (tc : List (List TextFragment)) :
    ∀ n, List.Forall₂
      (fun (hp : HtmlPage) (page : List TextFragment) =>
        hp.blocks = (order page).map renderBlock)
      (createHtmlPages n tc) tc := by
  induction tc with
  | nil => intro n; exact List.Forall₂.nil
  | cons p ps ih => intro n; exact List.Forall₂.cons rfl (ih (n + 1))

/-- C8: for every retained page, the rendered page has exactly as many
blocks as the page has fragments, and the multiset of block texts is
exactly the multiset of fragment texts — classification and sorting
drop and duplicate nothing. -/
theorem c8_no_fragment_lost (tc : List (List TextFragment)) :
    List.Forall₂
      (fun (hp : HtmlPage) (page : List TextFragment) =>
        hp.blocks.length = page.length
        ∧ (hp.blocks.map HtmlBlock.text).Perm (page.map TextFragment.text))
      (create_html_from_text tc) tc := by
  refine List.Forall₂.imp ?_ (createHtmlPages_blocks tc 1)
  intro hp page h
  rw [h]
  have hperm := List.perm_insertionSort readingOrderR page
  constructor
  · rw [List.length_map]
    exact hperm.length_eq
  · have hmap := hperm.map TextFragment.text
    simpa [List.map_map, Function.comp, renderBlock_text] using hmap

/-! ## Claims about the conversion driver -/

/-- C9: when extraction succeeds but yields zero pages with fragments,
the driver returns after the warning of lines 116-118: the only
file-system effect is the initial output-directory creation — no output
file is written — and the outcome is success, not an error. -/
theorem c9_empty_content_no_output (pages : List (List LTElement))
    (h : (extract_text_from_pdf pages).1 = []) :
    convert_pdf_to_html (Except.ok pages) = ([FsEffect.mkdirOutput], Except.ok ()) := by
  simp [convert_pdf_to_html, h]

/-- C9 witness: a document whose single page holds only a non-text
element yields no content, no output file and no error. -/
theorem c9_witness :
    (extract_text_from_pdf [[LTElement.other]]).1 = []
    ∧ convert_pdf_to_html (Except.ok [[LTElement.other]])
        = ([FsEffect.mkdirOutput], Except.ok ()) :=
  ⟨by decide, c9_empty_content_no_output [[LTElement.other]] (by decide)⟩

/-- C10: whenever the driver fails, its file-system trace is exactly
the initial output-directory creation: the output file is opened for
writing only after the HTML has been fully generated (line 130), so a
failure never creates or overwrites the output file, though the output
directory was already created (line 105). -/
theorem c10_no_write_on_failure (pdf : Except String (List (List LTElement))) (e : String)
    (h : (convert_pdf_to_html pdf).2 = Except.error e) :
    (convert_pdf_to_html pdf).1 = [FsEffect.mkdirOutput] := by
  cases pdf with
  | error s => rfl
  | ok pages =>
      exfalso
      by_cases h1 : ((extract_text_from_pdf pages).1).isEmpty = true
      · simp [convert_pdf_to_html, h1] at h
      · by_cases h2 :
          (create_html_from_text (extract_text_from_pdf pages).1).isEmpty = true
        · simp [convert_pdf_to_html, h1, h2] at h
        · simp [convert_pdf_to_html, h1, h2] at h

/-- C10 witness: an unreadable PDF fails the conversion, and the trace
holds only the directory creation — no file write. -/
theorem c10_witness :
    (convert_pdf_to_html (Except.error "corrupt")).2 = Except.error "corrupt"
    ∧ (convert_pdf_to_html (Except.error "corrupt")).1 = [FsEffect.mkdirOutput] :=
  ⟨rfl, c10_no_write_on_failure (Except.error "corrupt") "corrupt" rfl⟩
